import Mathlib

/-
Shallow embedding of the impulse peer-discovery protocol
(onlyhead/impulse): the capability-gated sharing policy, protocol
election, token bucket, peer-table merge, transport-engine dispatch and
the ARIS listen/announce loop, together with theorems settling the
specification claims about them.

Machine integers are modelled as `Int`/`Nat`, with explicit wrapping
where a C++ narrowing conversion occurs.  `std::map<std::string, V>`
is modelled as `String → Option V`.  Raw wire payloads are modelled by
their byte count (plus, where needed, the message value the `memcpy`
deserialization would produce), since the structs are exchanged as raw
memory images of a fixed size.  `double` fields (geographic data) are
opaque payload for every claim and are modelled as `Rat`.
-/

namespace Impulse

/-- Upsert into a `std::map` modelled as a function: `m[k] = v`. -/
def mapInsert {α : Type} (m : String → Option α) (k : String) (v : α) :
    String → Option α :=
  fun k' => if k' = k then some v else m k'

/-- Two's-complement wrap of an integer into the `int32_t` range,
modelling the C++ narrowing conversion from a wider integer to `int`. -/
def wrap32 (x : Int) : Int :=
  (x + 2147483648) % 4294967296 - 2147483648

/-- Value of a `uint32_t` (given by its nonnegative value) after
conversion to `int32_t`, as in `static_cast<Protocol>(msg.protocol)`. -/
def int32OfUInt32 (x : Nat) : Int :=
  if x % 4294967296 < 2147483648 then ((x % 4294967296 : Nat) : Int)
  else ((x % 4294967296 : Nat) : Int) - 4294967296

/-- `GeoPoint` from `aris.hpp` (and the `concord::Datum` origin used by
`Discovery`): three `double`s, opaque payload, modelled as rationals. -/
structure GeoPoint where
  latitude : Rat
  longitude : Rat
  altitude : Rat
deriving DecidableEq

/-- Enum `Protocol : int32_t` (`aris.hpp`), by its underlying value. -/
def Protocol.NONE : Int := -1

/-- `Protocol::DDS_RTPS = 0`. -/
def Protocol.DDS_RTPS : Int := 0

/-- `Protocol::ZENOH = 1`. -/
def Protocol.ZENOH : Int := 1

/-- `Protocol::MQTT = 2`. -/
def Protocol.MQTT : Int := 2

/-- The capability-gated sharing policy.  Body of
`ARISRobot::should_share_info_with` (`aris.hpp` lines 336-345); the
`Aris::should_share_info_with` (`message.hpp` lines 223-232) and
`Agent::should_share_info_with` (`src/unnamed/part_005` lines 98-108)
revisions have the identical branch structure.  `capability_index` is
the local score, `other_capability` the remote one. -/
def should_share_info_with (capability_index other_capability : Int) : Bool :=
  if 90 ≤ capability_index ∨ 90 ≤ other_capability then
    true
  else if 60 ≤ capability_index ∧ 60 ≤ other_capability then
    true
  else if 50 ≤ capability_index ∧ 50 ≤ other_capability then
    true
  else
    decide (25 ≤ capability_index ∧ 25 ≤ other_capability)

/-- Protocol election, `ARISRobot::select_protocol`
(`aris.hpp` lines 252-260). -/
def select_protocol (capability_index : Int) : Int :=
  if 90 ≤ capability_index then Protocol.DDS_RTPS
  else if 60 ≤ capability_index then Protocol.ZENOH
  else Protocol.MQTT

/-- Token refill, `ARISRobot::update_tokens` (`aris.hpp` lines 347-358),
as a function of the current token count and the elapsed milliseconds
since the last update.  `bandwidth_mbps = 10`; the product is computed
in 64 bits and narrowed to `int` (`wrap32`) when assigned to
`new_tokens`; the sum is capped at 1000 by `std::min`. -/
def update_tokens (tokens : Int) (elapsed_ms : Int) : Int :=
  if 100 < elapsed_ms then
    let new_tokens := wrap32 ((10 * elapsed_ms) / 10)
    min (tokens + new_tokens) 1000
  else
    tokens

/-- Token consumption, `ARISRobot::consume_tokens`
(`aris.hpp` lines 360-367): returns the new count and whether the
consumption succeeded. -/
def consume_tokens (tokens : Int) (count : Int) : Int × Bool :=
  if count ≤ tokens then (tokens - count, true) else (tokens, false)

/-- `AgentMessage` from `aris.hpp` (lines 24-40).  Fixed-size binary
record; `char` arrays are modelled as `String`s, the two fixed string
arrays as `List String`. -/
structure AgentMessage where
  timestamp : Nat
  public_key : String
  uuid : String
  orchestrator : Bool
  zero_ref : GeoPoint
  participant_uuids : List String
  capability_index : Int
  medium : Nat
  protocol : Nat
  ipv6_addresses : List String
  robot_id : Nat
  robot_name : String
deriving DecidableEq

/-- `sizeof(AgentMessage)` for the `aris.hpp` layout on x86-64
(8 + 64 + 37 + 1 + pad2 + 24 + 370 + pad2 + 4 + 4 + 4 + 138 + pad2 +
4 + 32 = 696): the byte count `recvfrom` must report for a payload to
be deserialized. -/
def AGENT_MESSAGE_SIZE : Int := 696

/-- Mutable state of an `ARISRobot` (`aris.hpp` lines 42-83) relevant
to message processing: identity, chosen protocol (underlying `int32`
of the `Protocol` enum), capability, peer table and token count. -/
structure ARISRobot where
  name_ : String
  uuid_ : String
  robot_id_ : Nat
  chosen_protocol_ : Int
  capability_index_ : Int
  known_robots_ : String → Option AgentMessage
  tokens_ : Int

/-- `ARISRobot::receive_message` (`aris.hpp` lines 300-334) as a
function of the byte count `recvfrom` returned and the message the
`memcpy` deserialization of the buffer would produce (meaningful when
the count matches `sizeof(AgentMessage)`).  Returns the updated robot
and the function's boolean result: on a size mismatch, `false` with no
change; on a self-uuid match, `false` with no change; otherwise the
protocol is adopted if still `NONE`, the peer table is upserted if the
sharing policy accepts, and the result is `true`. -/
def ARISRobot.receive_message (r : ARISRobot) (received : Int)
    (msg : AgentMessage) : ARISRobot × Bool :=
  if received = AGENT_MESSAGE_SIZE then
    if msg.uuid = r.uuid_ then
      (r, false)
    else
      let r1 :=
        if r.chosen_protocol_ = Protocol.NONE then
          { r with chosen_protocol_ := int32OfUInt32 msg.protocol }
        else r
      let r2 :=
        if should_share_info_with r1.capability_index_ msg.capability_index then
          { r1 with known_robots_ := mapInsert r1.known_robots_ msg.uuid msg }
        else r1
      (r2, true)
  else
    (r, false)

/-- One iteration of the listening phase of `ARISRobot::discovery_loop`
(`aris.hpp` lines 206-213): call `receive_message`; if it returns true
the loop sets `heard_network` and breaks (second component `true`:
listening ends), otherwise `update_tokens` runs and the loop sleeps
and continues (second component `false`). -/
def ARISRobot.listen_step (r : ARISRobot) (received : Int)
    (msg : AgentMessage) (elapsed_ms : Int) : ARISRobot × Bool :=
  let step := r.receive_message received msg
  if step.2 then
    (step.1, true)
  else
    ({ step.1 with tokens_ := update_tokens step.1.tokens_ elapsed_ms }, false)

end Impulse

namespace Impulse.MessageHpp

/-- `AgentMessage` of the `message.hpp` revision (lines 72-91): like
the `aris.hpp` one but without the `medium` and `protocol` fields. -/
structure AgentMessage where
  timestamp : Nat
  public_key : String
  uuid : String
  orchestrator : Bool
  zero_ref : GeoPoint
  participant_uuids : List String
  capability_index : Int
  ipv6_addresses : List String
  robot_id : Nat
  robot_name : String
deriving DecidableEq

/-- `sizeof(AgentMessage)` for the `message.hpp` layout on x86-64
(696 minus the 8 bytes of `medium` and `protocol`). -/
def AGENT_MESSAGE_SIZE : Nat := 688

/-- State of an `Aris` engine (`message.hpp` lines 93-121) relevant to
message processing: identity, capability and peer table. -/
structure Aris where
  name_ : String
  uuid_ : String
  id_ : Nat
  capability_index_ : Int
  known_robots_ : String → Option AgentMessage

/-- `Aris::handle_incoming_message` (`message.hpp` lines 266-280) as a
function of the inbound payload's byte count and the message its
deserialization would produce: on a size match, if the sharing policy
accepts, the peer table is upserted under the message's uuid — with no
self-uuid filter. -/
def Aris.handle_incoming_message (a : Aris) (message_size : Nat)
    (msg : AgentMessage) : Aris :=
  if message_size = AGENT_MESSAGE_SIZE then
    if should_share_info_with a.capability_index_ msg.capability_index then
      { a with known_robots_ := mapInsert a.known_robots_ msg.uuid msg }
    else a
  else a

end Impulse.MessageHpp

namespace Impulse

/-- `Discovery` message (`message.hpp` lines 19-37, with the
`set_timestamp` override of the `part_003` revision): self-reported
address, broadcast timestamp, immutable join time, geographic origin,
orchestrator flag and capability score. -/
structure Discovery where
  ipv6 : String
  timestamp : Nat
  join_time : Nat
  zero_ref : GeoPoint
  orchestrator : Bool
  capability_index : Int
deriving DecidableEq

/-- `Discovery::set_timestamp` (`part_003` line 35): mutates only the
`timestamp` field. -/
def Discovery.set_timestamp (d : Discovery) (timestamp : Nat) : Discovery :=
  { d with timestamp := timestamp }

/-- `sizeof(Discovery)` for the `message.hpp` layout on x86-64
(46 + pad2 + 8 + 8 + 24 + 1 + pad3 + 4 = 96). -/
def DISCOVERY_SIZE : Nat := 96

end Impulse

namespace Impulse.impulse

/-- Broadcast state of the generic Transport Engine,
`impulse::Transport<MessageT>` (`src/unnamed/part_000` lines 143-230):
the stored continuous-broadcast payload, whether broadcasting is
armed, and the interval in milliseconds. -/
structure Transport (M : Type) where
  name_ : String
  join_time_ : Nat
  message_ : M
  continuous_ : Bool
  interval_ : Nat

/-- `impulse::Transport::handle_incoming_message`
(`src/unnamed/part_000` lines 219-229): given the bound message type's
fixed size, its deserializer, the optionally registered handler
(modelled as a transformer of the handler owner's state `S`), the raw
payload bytes and the sender coordinates, it checks
`message.size() == msg.get_size()`; on a match it deserializes and
invokes the handler if present.  Returns the (possibly updated) owner
state and whether a handler was invoked. -/
def Transport.handle_incoming_message (M S : Type) (get_size : Nat)
    (deserialize : List UInt8 → M)
    (message_handler_ : Option (M → String → Nat → S → S))
    (message : List UInt8) (from_addr : String) (from_port : Nat)
    (st : S) : S × Bool :=
  if message.length = get_size then
    match message_handler_ with
    | some handler => (handler (deserialize message) from_addr from_port st, true)
    | none => (st, false)
  else
    (st, false)

/-- One iteration of `impulse::Transport::message_loop`
(`src/unnamed/part_000` lines 159-172), given the message type's
`set_timestamp` and the current `steady_clock` reading: while
`continuous_`, the stored message's timestamp is re-stamped with
`now.time_since_epoch().count()` — the raw tick count of the
monotonic `steady_clock` (nanoseconds since an unspecified epoch,
boot time on Linux), not the `system_clock` milliseconds used
everywhere else — and the message is sent once the interval has
elapsed since the last broadcast.  Returns the updated transport, the
new `last_broadcast` value and whether a send happened. -/
def Transport.message_tick (M : Type) (set_timestamp : M → Nat → M)
    (t : Transport M) (steady_now_count : Nat) (last_broadcast : Nat) :
    Transport M × Nat × Bool :=
  if t.continuous_ then
    let t1 := { t with message_ := set_timestamp t.message_ steady_now_count }
    if t.interval_ ≤ steady_now_count - last_broadcast then
      (t1, steady_now_count, true)
    else
      (t1, last_broadcast, false)
  else
    (t, last_broadcast, false)

end Impulse.impulse

namespace Impulse.PartFiveA

/-- State of the `Agent` revision at `src/unnamed/part_005` lines
12-130: name, capability (proxied from its transport) and the peer
table keyed by the peers' self-reported ipv6 strings. -/
structure Agent where
  name_ : String
  capability : Int
  known_agents_ : String → Option Discovery

/-- `Agent::handle_discovery_message` (`src/unnamed/part_005` lines
83-96): evaluate the sharing policy on (local capability, reported
capability); if accepted, upsert `known_agents_[msg.ipv6] = msg`
unconditionally; otherwise leave the table unchanged. -/
def Agent.handle_discovery_message (a : Agent) (msg : Discovery) : Agent :=
  if should_share_info_with a.capability msg.capability_index then
    { a with known_agents_ := mapInsert a.known_agents_ msg.ipv6 msg }
  else a

end Impulse.PartFiveA

namespace Impulse.PartFour

/-- State of the `Agent` revision at `src/unnamed/part_004`: name,
local address (`transport_.get_address()`), capability, and the peer
table (which holds the self-record inserted by the constructor). -/
structure Agent where
  name_ : String
  address : String
  capability : Int
  known_agents_ : String → Option Discovery

/-- `Agent::send_discovery` of the `part_004` revision (lines 54-67):
builds the outbound `Discovery` with `timestamp = now` and
`join_time = msg.timestamp` — a fresh stamp, not the join time stored
in the self-record — and passes it to `transport_.send`.  Returns the
message sent. -/
def Agent.send_discovery (a : Agent) (now_time : Nat) : Discovery :=
  { ipv6 := a.address
    timestamp := now_time
    join_time := now_time
    zero_ref := { latitude := 40.7128, longitude := -74.0060, altitude := 0 }
    orchestrator := false
    capability_index := a.capability }

end Impulse.PartFour

namespace Impulse.PartFiveB

/-- State of the continuous-broadcast `Agent` revision at
`src/unnamed/part_005` lines 142-226: name, local address, capability,
peer table, and the transport's broadcast slot
(`set_broadcast_message` target). -/
structure Agent where
  name_ : String
  address : String
  capability : Int
  known_agents_ : String → Option Discovery
  broadcast_message_ : Option Discovery

/-- `Agent::send_discovery` of the continuous-broadcast revision
(`src/unnamed/part_005` lines 186-203): stamp a fresh `timestamp`,
look up the self-record under the local address and copy its
`join_time` forward (falling back to the fresh time if absent), fill
the remaining fields, and hand the message to
`transport_.set_broadcast_message`. -/
def Agent.send_discovery (a : Agent) (now_time : Nat) : Agent :=
  let join_time :=
    match a.known_agents_ a.address with
    | some self_agent => self_agent.join_time
    | none => now_time
  let msg : Discovery :=
    { ipv6 := a.address
      timestamp := now_time
      join_time := join_time
      zero_ref := { latitude := 40.7128, longitude := -74.0060, altitude := 0 }
      orchestrator := false
      capability_index := a.capability }
  { a with broadcast_message_ := some msg }

end Impulse.PartFiveB

namespace Impulse

/-- Zero geographic origin, for concrete instances. -/
def zeroGeo : GeoPoint := { latitude := 0, longitude := 0, altitude := 0 }

/-- The literal origin `{40.7128, -74.0060, 0.0}` hard-coded by every
`send_discovery` / `send_agent_message` in the source. -/
def nycGeo : GeoPoint := { latitude := 40.7128, longitude := -74.0060, altitude := 0 }

/-- Concrete self-record of a `part_004` agent: created by the
constructor with `join_time = timestamp = 1000`. -/
def p4SelfRecord : Discovery :=
  { ipv6 := "a4", timestamp := 1000, join_time := 1000, zero_ref := nycGeo,
    orchestrator := false, capability_index := 75 }

/-- Concrete `part_004` agent holding `p4SelfRecord` under its own
address. -/
def p4Agent : PartFour.Agent :=
  { name_ := "r4", address := "a4", capability := 75,
    known_agents_ := mapInsert (fun _ => none) "a4" p4SelfRecord }

/-- Concrete self-record of a continuous-broadcast (`part_005`)
agent, with `join_time = 1000`. -/
def p5bSelfRecord : Discovery :=
  { ipv6 := "a5", timestamp := 1000, join_time := 1000, zero_ref := nycGeo,
    orchestrator := false, capability_index := 75 }

/-- Concrete continuous-broadcast (`part_005`) agent holding
`p5bSelfRecord` under its own address. -/
def p5bAgent : PartFiveB.Agent :=
  { name_ := "r5", address := "a5", capability := 75,
    known_agents_ := mapInsert (fun _ => none) "a5" p5bSelfRecord,
    broadcast_message_ := none }

/-- Concrete `part_005` (non-broadcast revision) agent with capability
75 and a prior entry for key "b1" with `join_time = 7`. -/
def priorEntry : Discovery :=
  { ipv6 := "b1", timestamp := 7, join_time := 7, zero_ref := zeroGeo,
    orchestrator := false, capability_index := 80 }

/-- Agent holding `priorEntry` under key "b1". -/
def mergeAgent : PartFiveA.Agent :=
  { name_ := "rm", capability := 75,
    known_agents_ := mapInsert (fun _ => none) "b1" priorEntry }

/-- Inbound discovery for the same key "b1" claiming `join_time = 9`. -/
def inboundDiscovery : Discovery :=
  { ipv6 := "b1", timestamp := 20, join_time := 9, zero_ref := zeroGeo,
    orchestrator := false, capability_index := 80 }

/-- Self-record an `Aris` engine (uuid "u1") stores for itself at
startup (`message.hpp` lines 134-149). -/
def selfRecordM : MessageHpp.AgentMessage :=
  { timestamp := 1, public_key := "", uuid := "u1", orchestrator := false,
    zero_ref := zeroGeo, participant_uuids := [], capability_index := 75,
    ipv6_addresses := ["a1", "", ""], robot_id := 1, robot_name := "r1" }

/-- A loopback copy of the engine's own broadcast: same uuid "u1",
later timestamp. -/
def loopbackMsgM : MessageHpp.AgentMessage :=
  { timestamp := 2, public_key := "k", uuid := "u1", orchestrator := false,
    zero_ref := nycGeo, participant_uuids := [], capability_index := 75,
    ipv6_addresses := ["a1", "", ""], robot_id := 1, robot_name := "r1" }

/-- An inbound message from a different peer "p2" with capability 80. -/
def peerMsgM : MessageHpp.AgentMessage :=
  { timestamp := 3, public_key := "k", uuid := "p2", orchestrator := false,
    zero_ref := zeroGeo, participant_uuids := [], capability_index := 80,
    ipv6_addresses := ["a2", "", ""], robot_id := 2, robot_name := "r2" }

/-- Concrete `Aris` engine with local identity "u1", capability 75,
holding its self-record in the peer table. -/
def arisEngine : MessageHpp.Aris :=
  { name_ := "r1", uuid_ := "u1", id_ := 1, capability_index_ := 75,
    known_robots_ := mapInsert (fun _ => none) "u1" selfRecordM }

/-- Concrete `ARISRobot` with identity "s1". -/
def selfFilterRobot : ARISRobot :=
  { name_ := "rs", uuid_ := "s1", robot_id_ := 3, chosen_protocol_ := 2,
    capability_index_ := 75, known_robots_ := fun _ => none, tokens_ := 1000 }

/-- Loopback of `selfFilterRobot`'s own announcement (uuid "s1"). -/
def selfLoopMsg : AgentMessage :=
  { timestamp := 4, public_key := "k", uuid := "s1", orchestrator := false,
    zero_ref := nycGeo, participant_uuids := [], capability_index := 75,
    medium := 1, protocol := 2, ipv6_addresses := ["a3", "", ""],
    robot_id := 3, robot_name := "rs" }

/-- Concrete listening `ARISRobot` with capability 24 (below every
sharing threshold) and a protocol already chosen. -/
def lowCapRobot : ARISRobot :=
  { name_ := "rl", uuid_ := "l1", robot_id_ := 4, chosen_protocol_ := 2,
    capability_index_ := 24, known_robots_ := fun _ => none, tokens_ := 1000 }

/-- Correctly-sized inbound message from peer "p8" with capability 25:
the sharing policy of a capability-24 robot rejects it. -/
def rejectedPeerMsg : AgentMessage :=
  { timestamp := 5, public_key := "k", uuid := "p8", orchestrator := false,
    zero_ref := nycGeo, participant_uuids := [], capability_index := 25,
    medium := 1, protocol := 1, ipv6_addresses := ["a8", "", ""],
    robot_id := 8, robot_name := "r8" }

/-- Concrete `ARISRobot` whose protocol is still `NONE` and whose
capability 24 makes its policy reject a capability-25 peer. -/
def noneProtocolRobot : ARISRobot :=
  { name_ := "rn", uuid_ := "n1", robot_id_ := 5, chosen_protocol_ := -1,
    capability_index_ := 24, known_robots_ := fun _ => none, tokens_ := 1000 }

/-- Peer message advertising protocol 1 (`ZENOH`) with capability 25. -/
def zenohPeerMsg : AgentMessage :=
  { timestamp := 6, public_key := "k", uuid := "p1", orchestrator := false,
    zero_ref := nycGeo, participant_uuids := [], capability_index := 25,
    medium := 1, protocol := 1, ipv6_addresses := ["a7", "", ""],
    robot_id := 6, robot_name := "r6" }

/-- Self `Discovery` record of a continuous-broadcast agent created at
system time 1760000000000 ms (`part_005` lines 167-181):
`join_time = timestamp = now`. -/
def selfDiscovery : Discovery :=
  { ipv6 := "a9", timestamp := 1760000000000, join_time := 1760000000000,
    zero_ref := nycGeo, orchestrator := false, capability_index := 75 }

/-- Transport engine armed for continuous broadcast of
`selfDiscovery` at a 1000 ms interval. -/
def broadcastEngine : impulse.Transport Discovery :=
  { name_ := "t9", join_time_ := 1760000000000, message_ := selfDiscovery,
    continuous_ := true, interval_ := 1000 }

/-- A deserializer for `Discovery` raw images, constant since the
claims never inspect a decoded mis-sized payload. -/
def constDiscoveryDecode : List UInt8 → Discovery := fun _ => selfDiscovery

/-- The peer-table-upserting handler an Agent registers on its
transport engine. -/
def discoveryTableHandler :
    Discovery → String → Nat → (String → Option Discovery) →
      (String → Option Discovery) :=
  fun m _ _ tbl => mapInsert tbl m.ipv6 m

end Impulse

namespace Impulse

/-- **C1**: for every pair of capability scores `local`, `remote` in
[0,100], `should_share_info_with local remote` is true iff
`max local remote ≥ 90` or `min local remote ≥ 25`; in particular it is
true at (25, 25) and false at (24, 25). -/
theorem should_share_policy_simplification :
    (∀ l r : Int, 0 ≤ l → l ≤ 100 → 0 ≤ r → r ≤ 100 →
      (should_share_info_with l r = true ↔ 90 ≤ max l r ∨ 25 ≤ min l r)) ∧
    should_share_info_with 25 25 = true ∧
    should_share_info_with 24 25 = false := by
  refine ⟨?_, by decide, by decide⟩
  intro l r _ _ _ _
  unfold should_share_info_with
  split_ifs with h1 h2 h3 <;>
    simp only [decide_eq_true_eq, true_iff, le_max_iff, le_min_iff] <;>
    omega

/-- Witness for C1 at the concrete boundary pair (25, 25). -/
theorem should_share_policy_simplification_witness :
    (0 : Int) ≤ 25 ∧ (25 : Int) ≤ 100 ∧
    (should_share_info_with 25 25 = true ↔
      90 ≤ max (25 : Int) 25 ∨ 25 ≤ min (25 : Int) 25) :=
  ⟨by norm_num, by norm_num,
    should_share_policy_simplification.1 25 25 (by norm_num) (by norm_num)
      (by norm_num) (by norm_num)⟩

/-- **C7**: the protocol election returns `DDS_RTPS` for capability
≥ 90, `ZENOH` for capability in [60, 90), and `MQTT` otherwise; in
particular capability 95 elects `DDS_RTPS` and 55 elects `MQTT`. -/
theorem select_protocol_thresholds :
    (∀ c : Int,
      (90 ≤ c → select_protocol c = Protocol.DDS_RTPS) ∧
      (60 ≤ c → c < 90 → select_protocol c = Protocol.ZENOH) ∧
      (c < 60 → select_protocol c = Protocol.MQTT)) ∧
    select_protocol 95 = Protocol.DDS_RTPS ∧
    select_protocol 55 = Protocol.MQTT := by
  refine ⟨?_, by decide, by decide⟩
  intro c
  refine ⟨fun h90 => ?_, fun h60 h90 => ?_, fun h60 => ?_⟩ <;>
    · unfold select_protocol
      split_ifs <;> first | rfl | omega

/-- Witness for C7 at capability 95 (first conjunct) and 55 (third). -/
theorem select_protocol_thresholds_witness :
    ((90 : Int) ≤ 95 ∧ select_protocol 95 = Protocol.DDS_RTPS) ∧
    ((55 : Int) < 60 ∧ select_protocol 55 = Protocol.MQTT) :=
  ⟨⟨by norm_num, (select_protocol_thresholds.1 95).1 (by norm_num)⟩,
   ⟨by norm_num, (select_protocol_thresholds.1 55).2.2 (by norm_num)⟩⟩

/-- **C4**: starting from any token count ≤ 1000 (the constructor sets
1000), any sequence of refill ticks keeps `tokens ≤ 1000`; consuming
`n ≤ tokens` succeeds leaving exactly `tokens - n`; consuming
`n > tokens` fails leaving the count unchanged. -/
theorem token_bucket_properties :
    (∀ (ticks : List Int) (t : Int), t ≤ 1000 →
      ticks.foldl update_tokens t ≤ 1000) ∧
    (∀ t n : Int, n ≤ t → consume_tokens t n = (t - n, true)) ∧
    (∀ t n : Int, t < n → consume_tokens t n = (t, false)) := by
  refine ⟨?_, fun t n h => ?_, fun t n h => ?_⟩
  · intro ticks
    induction ticks with
    | nil => intro t ht; simpa using ht
    | cons e rest ih =>
        intro t ht
        simp only [List.foldl_cons]
        apply ih
        unfold update_tokens
        split_ifs with h
        · exact min_le_right _ _
        · exact ht
  · unfold consume_tokens
    rw [if_pos h]
  · unfold consume_tokens
    rw [if_neg (by omega)]

/-- Witness for C4: three refill ticks from a full bucket stay ≤ 1000;
consuming 10 of 500 leaves 490; consuming 30 of 5 fails unchanged. -/
theorem token_bucket_properties_witness :
    ((1000 : Int) ≤ 1000 ∧
      ([150, 5000, 50] : List Int).foldl update_tokens 1000 ≤ 1000) ∧
    ((10 : Int) ≤ 500 ∧ consume_tokens 500 10 = (490, true)) ∧
    ((5 : Int) < 30 ∧ consume_tokens 5 30 = (5, false)) :=
  ⟨⟨by norm_num, token_bucket_properties.1 [150, 5000, 50] 1000 (by norm_num)⟩,
   ⟨by norm_num, token_bucket_properties.2.1 500 10 (by norm_num)⟩,
   ⟨by norm_num, token_bucket_properties.2.2 5 30 (by norm_num)⟩⟩

/-- **C2**: the continuous-broadcast revision of `send_discovery`
(`part_005` lines 186-203) copies the self-record's `join_time = T0`
into every broadcast message, over any number of calls with varying
fresh timestamps; but the `part_004` revision (lines 54-67) re-stamps
`join_time` with the fresh timestamp: at the concrete failing input
(self-record `join_time = 1000`, refresh at time 5000) the message it
sends carries `join_time = 5000`, not 1000. -/
theorem send_discovery_join_time_divergence :
    (∀ (a : PartFiveB.Agent) (self_agent : Discovery) (T0 : Nat)
       (ts : List Nat),
      a.known_agents_ a.address = some self_agent →
      self_agent.join_time = T0 →
      ts ≠ [] →
      ((ts.foldl PartFiveB.Agent.send_discovery a).broadcast_message_).map
          Discovery.join_time = some T0) ∧
    (PartFour.Agent.send_discovery p4Agent 5000).join_time = 5000 ∧
    p4Agent.known_agents_ p4Agent.address = some p4SelfRecord ∧
    p4SelfRecord.join_time = 1000 := by
  refine ⟨?_, rfl, ?_, rfl⟩
  · intro a self_agent T0 ts
    induction ts generalizing a with
    | nil =>
        intro _ _ hne
        exact absurd rfl hne
    | cons t rest ih =>
        intro hself hT0 _
        rcases rest with _ | ⟨t2, rest2⟩
        · simp only [List.foldl_cons, List.foldl_nil,
            PartFiveB.Agent.send_discovery, hself, Option.map_some]
          exact congrArg some hT0
        · simp only [List.foldl_cons]
          exact ih (a.send_discovery t) hself hT0 (by simp)
  · simp [p4Agent, mapInsert]

/-- Witness for C2's universally quantified part: the concrete
continuous-broadcast agent with self `join_time = 1000`, refreshed at
times 2000 and 3000, still broadcasts `join_time = 1000`. -/
theorem send_discovery_join_time_divergence_witness :
    p5bAgent.known_agents_ p5bAgent.address = some p5bSelfRecord ∧
    p5bSelfRecord.join_time = 1000 ∧
    ([2000, 3000] : List Nat) ≠ [] ∧
    ((([2000, 3000] : List Nat).foldl PartFiveB.Agent.send_discovery
        p5bAgent).broadcast_message_).map Discovery.join_time = some 1000 :=
  ⟨by simp [p5bAgent, mapInsert], rfl, by simp,
    send_discovery_join_time_divergence.1 p5bAgent p5bSelfRecord 1000
      [2000, 3000] (by simp [p5bAgent, mapInsert]) rfl (by simp)⟩

/-- **C3**: for an inbound message accepted by the sharing policy, the
merge sets the table entry for the sender's key to exactly the
received message — for the `Agent` merge (`part_005` lines 83-96,
keyed by the reported ipv6) and the `Aris` merge (`message.hpp` lines
266-280, keyed by the reported uuid); the stored `join_time` is the
sender's claimed one. -/
theorem merge_overwrites_with_received_message :
    (∀ (a : PartFiveA.Agent) (msg : Discovery),
      should_share_info_with a.capability msg.capability_index = true →
      (a.handle_discovery_message msg).known_agents_ msg.ipv6 = some msg ∧
      ((a.handle_discovery_message msg).known_agents_ msg.ipv6).map
          Discovery.join_time = some msg.join_time) ∧
    (∀ (ar : MessageHpp.Aris) (m : MessageHpp.AgentMessage),
      should_share_info_with ar.capability_index_ m.capability_index = true →
      (ar.handle_incoming_message MessageHpp.AGENT_MESSAGE_SIZE m).known_robots_
          m.uuid = some m) := by
  constructor
  · intro a msg h
    unfold PartFiveA.Agent.handle_discovery_message
    rw [if_pos h]
    simp [mapInsert]
  · intro ar m h
    unfold MessageHpp.Aris.handle_incoming_message
    rw [if_pos rfl, if_pos h]
    simp [mapInsert]

/-- Witness for C3: the concrete agent (capability 75) accepts the
capability-80 message for key "b1" — overwriting the prior entry with
`join_time = 7` by the received one with `join_time = 9` — and the
concrete `Aris` engine accepts peer "p2". -/
theorem merge_overwrites_with_received_message_witness :
    (should_share_info_with mergeAgent.capability
        inboundDiscovery.capability_index = true ∧
      ((mergeAgent.handle_discovery_message inboundDiscovery).known_agents_
          inboundDiscovery.ipv6 = some inboundDiscovery ∧
        ((mergeAgent.handle_discovery_message inboundDiscovery).known_agents_
            inboundDiscovery.ipv6).map Discovery.join_time =
          some inboundDiscovery.join_time)) ∧
    (should_share_info_with arisEngine.capability_index_
        peerMsgM.capability_index = true ∧
      (arisEngine.handle_incoming_message MessageHpp.AGENT_MESSAGE_SIZE
          peerMsgM).known_robots_ peerMsgM.uuid = some peerMsgM) :=
  ⟨⟨by decide,
      merge_overwrites_with_received_message.1 mergeAgent inboundDiscovery
        (by decide)⟩,
   ⟨by decide,
      merge_overwrites_with_received_message.2 arisEngine peerMsgM
        (by decide)⟩⟩

/-- **C5 counterexample**: the `Aris` engine of `message.hpp` applies
no self-filter: with local identity "u1" and its self-record stored
under "u1", processing an inbound message that declares uuid "u1"
(a multicast loopback of its own announcement) overwrites the
peer-table entry "u1" with that message, which differs from the stored
self-record — so ``the self-message is discarded before any table
mutation'' is false for this agent. -/
theorem aris_self_message_updates_own_entry :
    arisEngine.uuid_ = "u1" ∧
    loopbackMsgM.uuid = "u1" ∧
    arisEngine.known_robots_ "u1" = some selfRecordM ∧
    (arisEngine.handle_incoming_message MessageHpp.AGENT_MESSAGE_SIZE
        loopbackMsgM).known_robots_ "u1" = some loopbackMsgM ∧
    loopbackMsgM ≠ selfRecordM := by
  refine ⟨rfl, rfl, by simp [arisEngine, mapInsert], ?_, by decide⟩
  unfold MessageHpp.Aris.handle_incoming_message
  rw [if_pos rfl, if_pos (by decide)]
  simp [mapInsert, loopbackMsgM]

/-- **C5 amended**: for every `ARISRobot` (`aris.hpp` lines 300-334),
an inbound message whose declared uuid equals the robot's own is
discarded with no state change — in particular no peer-table entry is
inserted or updated.  (The `Aris` engine of `message.hpp` has no such
filter; see the counterexample.) -/
theorem arisrobot_self_filter :
    ∀ (r : ARISRobot) (received : Int) (msg : AgentMessage),
      msg.uuid = r.uuid_ →
      r.receive_message received msg = (r, false) := by
  intro r received msg h
  unfold ARISRobot.receive_message
  by_cases hsz : received = AGENT_MESSAGE_SIZE
  · rw [if_pos hsz, if_pos h]
  · rw [if_neg hsz]

/-- Witness for the amended C5: the concrete robot "s1" receiving a
correctly-sized loopback of its own message is left unchanged. -/
theorem arisrobot_self_filter_witness :
    selfLoopMsg.uuid = selfFilterRobot.uuid_ ∧
    selfFilterRobot.receive_message AGENT_MESSAGE_SIZE selfLoopMsg =
      (selfFilterRobot, false) :=
  ⟨rfl, arisrobot_self_filter selfFilterRobot AGENT_MESSAGE_SIZE
    selfLoopMsg rfl⟩

/-- **C6**: an inbound raw payload whose byte length differs from the
bound message type's fixed size is silently discarded: the generic
engine's `handle_incoming_message` (`part_000` lines 219-229) invokes
no registered handler and leaves the handler owner's state (the peer
table) unchanged, and `ARISRobot::receive_message` (`aris.hpp` lines
300-334) returns false with no state change; no error is surfaced. -/
theorem mis_sized_payload_discarded :
    (∀ (M S : Type) (get_size : Nat) (deserialize : List UInt8 → M)
       (handler : Option (M → String → Nat → S → S))
       (message : List UInt8) (from_addr : String) (from_port : Nat) (st : S),
      message.length ≠ get_size →
      impulse.Transport.handle_incoming_message M S get_size deserialize
        handler message from_addr from_port st = (st, false)) ∧
    (∀ (r : ARISRobot) (received : Int) (msg : AgentMessage),
      received ≠ AGENT_MESSAGE_SIZE →
      r.receive_message received msg = (r, false)) := by
  constructor
  · intro M S get_size deserialize handler message from_addr from_port st h
    unfold impulse.Transport.handle_incoming_message
    rw [if_neg h]
  · intro r received msg h
    unfold ARISRobot.receive_message
    rw [if_neg h]

/-- Witness for C6 at the spec's scenario: a 10-byte payload fed to an
engine bound to the 96-byte `Discovery` type, with the table-upserting
handler registered and an empty peer table: no handler invocation, no
table mutation. -/
theorem mis_sized_payload_discarded_witness :
    ((List.replicate 10 (0 : UInt8)).length ≠ DISCOVERY_SIZE ∧
      impulse.Transport.handle_incoming_message Discovery
        (String → Option Discovery) DISCOVERY_SIZE constDiscoveryDecode
        (some discoveryTableHandler) (List.replicate 10 (0 : UInt8))
        "a6" 7447 (fun _ => none) = ((fun _ => none), false)) ∧
    ((10 : Int) ≠ AGENT_MESSAGE_SIZE ∧
      lowCapRobot.receive_message 10 rejectedPeerMsg = (lowCapRobot, false)) :=
  ⟨⟨by decide,
      mis_sized_payload_discarded.1 Discovery (String → Option Discovery)
        DISCOVERY_SIZE constDiscoveryDecode (some discoveryTableHandler)
        (List.replicate 10 (0 : UInt8)) "a6" 7447 (fun _ => none)
        (by decide)⟩,
   ⟨by decide,
      mis_sized_payload_discarded.2 lowCapRobot 10 rejectedPeerMsg
        (by decide)⟩⟩

/-- **C8 counterexample**: a correctly-sized inbound message whose
sender the sharing policy rejects still ends the listen phase: the
capability-24 robot rejects the capability-25 peer (so nothing is
added to the peer table), yet the listen-phase iteration breaks with
`heard_network = true` — refuting the clause that a
sharing-policy-rejected message leaves the agent listening. -/
theorem rejected_message_ends_listening :
    should_share_info_with lowCapRobot.capability_index_
      rejectedPeerMsg.capability_index = false ∧
    (lowCapRobot.listen_step AGENT_MESSAGE_SIZE rejectedPeerMsg 0).2 = true ∧
    (lowCapRobot.listen_step AGENT_MESSAGE_SIZE rejectedPeerMsg
        0).1.known_robots_ rejectedPeerMsg.uuid = none := by
  refine ⟨by decide, by decide, by decide⟩

/-- **C8 amended**: while LISTENING, an inbound message ends the
listen phase exactly when its byte count matches
`sizeof(AgentMessage)` and its declared uuid differs from the robot's
own — acceptance by the sharing policy is not required; self-originated
or mis-sized payloads leave the agent listening. -/
theorem listen_ends_iff_sized_nonself :
    ∀ (r : ARISRobot) (received : Int) (msg : AgentMessage)
      (elapsed_ms : Int),
      ((r.listen_step received msg elapsed_ms).2 = true ↔
        (received = AGENT_MESSAGE_SIZE ∧ msg.uuid ≠ r.uuid_)) := by
  intro r received msg elapsed_ms
  unfold ARISRobot.listen_step ARISRobot.receive_message
  by_cases hsz : received = AGENT_MESSAGE_SIZE
  · by_cases hu : msg.uuid = r.uuid_
    · simp [hsz, hu]
    · simp [hsz, hu]
  · simp [hsz]

/-- Witness for the amended C8 at the concrete rejected-peer input. -/
theorem listen_ends_iff_sized_nonself_witness :
    (lowCapRobot.listen_step AGENT_MESSAGE_SIZE rejectedPeerMsg 0).2 = true ↔
      (AGENT_MESSAGE_SIZE = AGENT_MESSAGE_SIZE ∧
        rejectedPeerMsg.uuid ≠ lowCapRobot.uuid_) :=
  listen_ends_iff_sized_nonself lowCapRobot AGENT_MESSAGE_SIZE
    rejectedPeerMsg 0

/-- **C9**: the continuous-broadcast tick (`part_000` lines 159-172)
re-stamps the stored message's timestamp with the raw `steady_clock`
tick count, a different clock and unit from the `system_clock`
milliseconds that set `join_time`: for the self-record created at
system time 1760000000000 ms, a tick on a machine up for one second
(steady reading 1000000000) stores `timestamp = 1000000000 <
join_time`, breaking `join_time ≤ timestamp`. -/
theorem broadcast_restamp_breaks_join_le_timestamp :
    selfDiscovery.join_time ≤ selfDiscovery.timestamp ∧
    broadcastEngine.message_ = selfDiscovery ∧
    (impulse.Transport.message_tick Discovery Discovery.set_timestamp
        broadcastEngine 1000000000 0).1.message_.timestamp <
      (impulse.Transport.message_tick Discovery Discovery.set_timestamp
        broadcastEngine 1000000000 0).1.message_.join_time := by
  refine ⟨by decide, rfl, by decide⟩

/-- **C10**: for an `ARISRobot` whose chosen protocol is still `NONE`,
any correctly-sized inbound message with a different uuid sets the
chosen protocol to the sender's advertised `protocol` field (as the
`uint32 → int32` cast of `static_cast<Protocol>`), and this happens
even when the sharing policy rejects the sender, in which case the
peer table is left unchanged. -/
theorem protocol_adopted_before_policy_check :
    ∀ (r : ARISRobot) (msg : AgentMessage),
      r.chosen_protocol_ = Protocol.NONE →
      msg.uuid ≠ r.uuid_ →
      ((r.receive_message AGENT_MESSAGE_SIZE msg).1.chosen_protocol_ =
          int32OfUInt32 msg.protocol ∧
        (should_share_info_with r.capability_index_ msg.capability_index =
            false →
          (r.receive_message AGENT_MESSAGE_SIZE msg).1.known_robots_ =
            r.known_robots_)) := by
  intro r msg hnone huuid
  by_cases hs :
      should_share_info_with r.capability_index_ msg.capability_index = true
  · constructor
    · simp [ARISRobot.receive_message, hnone, huuid, hs]
    · intro hfalse
      rw [hs] at hfalse
      cases hfalse
  · constructor
    · simp [ARISRobot.receive_message, hnone, huuid, hs]
    · intro _
      simp [ARISRobot.receive_message, hnone, huuid, hs]

/-- Witness for C10: the concrete capability-24 robot with protocol
still `NONE` receives the capability-25 peer's message advertising
protocol 1: the policy rejects the peer, yet protocol 1 is adopted and
the peer table stays unchanged. -/
theorem protocol_adopted_before_policy_check_witness :
    noneProtocolRobot.chosen_protocol_ = Protocol.NONE ∧
    zenohPeerMsg.uuid ≠ noneProtocolRobot.uuid_ ∧
    ((noneProtocolRobot.receive_message AGENT_MESSAGE_SIZE
          zenohPeerMsg).1.chosen_protocol_ =
        int32OfUInt32 zenohPeerMsg.protocol ∧
      (should_share_info_with noneProtocolRobot.capability_index_
          zenohPeerMsg.capability_index = false →
        (noneProtocolRobot.receive_message AGENT_MESSAGE_SIZE
            zenohPeerMsg).1.known_robots_ = noneProtocolRobot.known_robots_)) :=
  ⟨rfl, by decide,
    protocol_adopted_before_policy_check noneProtocolRobot zenohPeerMsg rfl
      (by decide)⟩

end Impulse
